import Mathlib

set_option maxRecDepth 8192

/-! ## Definitions: string helpers, code model, operation records, generation passes -/

/-- Character-level search for the first occurrence of `sep`: `none` when it
does not occur, otherwise the text before it and the text after it. -/
def splitOnceAux (sep : List Char) : List Char → Option (List Char × List Char)
  | [] => if sep.isEmpty then some ([], []) else none
  | c :: rest =>
    if sep.isPrefixOf (c :: rest) then some ([], (c :: rest).drop sep.length)
    else match splitOnceAux sep rest with
      | none => none
      | some (pre, post) => some (c :: pre, post)

/-- Model of `llvm::StringRef::split(Separator)`: the pair of the text before
the first occurrence of the separator and the text after it; when the
separator does not occur, the whole string and the empty string. -/
def strSplitOnce (s sep : String) : String × String :=
  match splitOnceAux sep.data s.data with
  | none => (s, "")
  | some (pre, post) => (String.mk pre, String.mk post)

/-- Whether `pat` occurs somewhere in `s`. -/
def strContains (s pat : String) : Bool :=
  (splitOnceAux pat.data s.data).isSome

/-- Model of `llvm::StringRef::ltrim()` / `rtrim(chars)`: drop characters
satisfying `p` from the left. -/
def strLtrim (s : String) (p : Char → Bool) : String :=
  String.mk (s.data.dropWhile p)

/-- Drop characters satisfying `p` from the right. -/
def strRtrim (s : String) (p : Char → Bool) : String :=
  String.mk ((s.data.reverse.dropWhile p).reverse)

/-- The character set dropped by `StringRef::ltrim()` (all whitespace). -/
def isLtrimChar (c : Char) : Bool :=
  c = Char.ofNat 32 || c = Char.ofNat 9 || c = Char.ofNat 10 || c = Char.ofNat 11
    || c = Char.ofNat 12 || c = Char.ofNat 13

/-- The character set passed to `rtrim(" \t\v\f\r")` in `genParser` /
`genPrinter`: trailing whitespace except newlines. -/
def isRtrimChar (c : Char) : Bool :=
  c = Char.ofNat 32 || c = Char.ofNat 9 || c = Char.ofNat 11 || c = Char.ofNat 12
    || c = Char.ofNat 13

/-- The trimming applied to verbatim parser/printer text:
`.ltrim().rtrim(" \t\v\f\r")`. -/
def llvmTrimCustomCode (s : String) : String :=
  strRtrim (strLtrim s isLtrimChar) isRtrimChar

/-- Signature of a generated method (`OpMethodSignature`). -/
structure OpMethodSignature where
  returnType : String
  methodName : String
  parameters : String

/-- Mirror of `OpMethodSignature::endsWithRefOrPtr`: the return type ends in `&` or
`*`. -/
def endsWithRefOrPtr (type : String) : Bool :=
  type.data.getLast? = some (Char.ofNat 38) || type.data.getLast? = some (Char.ofNat 42)

/-- Mirror of `OpMethodSignature::writeDeclTo`: `RetType name(params)`, with a space
after the return type unless it ends in `&` or `*`. -/
def OpMethodSignature.writeDeclToStr (sig : OpMethodSignature) : String :=
  sig.returnType ++ (if endsWithRefOrPtr sig.returnType then "" else " ")
    ++ sig.methodName ++ "(" ++ sig.parameters ++ ")"

/-- The default-value stripping loop inside `OpMethodSignature::writeDefTo`
(`removeParamDefaultValue`), with explicit fuel standing for the C++
`while (!params.empty())` loop; each iteration strictly shrinks `params`,
so `length + 1` steps always suffice. -/
def removeParamLoop : Nat → String → String → String
  | 0, _, result => result
  | fuel + 1, params, result =>
    if params.data.isEmpty then result
    else
      let parts := strSplitOnce params "="
      let result := result ++ (if result.data.isEmpty then "" else ", ") ++ parts.1
      removeParamLoop fuel (strSplitOnce parts.2 ",").2 result

/-- Mirror of `removeParamDefaultValue` from `OpMethodSignature::writeDefTo`: for every
comma-separated entry containing `=`, keep only the text before the `=`. -/
def removeParamDefaultValue (params : String) : String :=
  removeParamLoop (params.data.length + 1) params ""

/-- Mirror of `OpMethodSignature::writeDefTo`: definition-style signature, qualified by
`classNamePfx ::`, with parameter default values stripped. -/
def OpMethodSignature.writeDefToStr (sig : OpMethodSignature) (classNamePfx : String) : String :=
  sig.returnType ++ (if endsWithRefOrPtr sig.returnType then "" else " ")
    ++ classNamePfx ++ (if classNamePfx.data.isEmpty then "" else "::") ++ sig.methodName
    ++ "(" ++ removeParamDefaultValue sig.parameters ++ ")"

/-- A generated method (`OpMethod`): signature, static flag,
declaration-only flag and accumulated body (`OpMethodBody`). -/
structure OpMethod where
  sig : OpMethodSignature
  isStatic : Bool
  isDeclOnly : Bool
  body : String

/-- Mirror of `OpClass::newMethod` creates a method with an empty body. -/
def OpMethod.mk0 (retType name params : String) (isStatic declOnly : Bool) : OpMethod :=
  ⟨⟨retType, name, params⟩, isStatic, declOnly, ""⟩

/-- Mirror of `OpMethodBody::operator<<`: appends to the body only when the method is
effective (not declaration-only). -/
def OpMethod.app (m : OpMethod) (s : String) : OpMethod :=
  if m.isDeclOnly then m else { m with body := m.body ++ s }

/-- Mirror of `OpMethodBody::writeTo`: the body followed by a newline unless it already
ends in one (also when empty). -/
def bodyWriteToStr (body : String) : String :=
  if body.data.getLast? = some (Char.ofNat 10) then body else body ++ "\n"

/-- Mirror of `OpMethod::writeDeclTo`: two-space indent, optional `static `, signature,
trailing semicolon. -/
def OpMethod.writeDeclToStr (m : OpMethod) : String :=
  "  " ++ (if m.isStatic then "static " else "") ++ m.sig.writeDeclToStr ++ ";"

/-- Mirror of `OpMethod::writeDefTo`: nothing for a declaration-only method, otherwise
the qualified signature followed by the braced body. -/
def OpMethod.writeDefToStr (m : OpMethod) (classNamePfx : String) : String :=
  if m.isDeclOnly then ""
  else m.sig.writeDefToStr classNamePfx ++ " \x7b\n" ++ bodyWriteToStr m.body ++ "\x7d"

/-- A generated op class (`OpClass`): name, ordered trait strings, ordered
methods. -/
structure OpClass where
  className : String
  traits : List String
  methods : List OpMethod

/-- Mirror of `OpClass::addTrait`: pushes the trait, prefixing `OpTrait::` implicitly. -/
def OpClass.addTrait (cls : OpClass) (t : String) : OpClass :=
  { cls with traits := cls.traits ++ ["OpTrait::" ++ t] }

/-- Appending a completed method to the class (the effect of
`OpClass::newMethod` plus the subsequent body streaming). -/
def OpClass.addMethod (cls : OpClass) (m : OpMethod) : OpClass :=
  { cls with methods := cls.methods ++ [m] }

/-- Mirror of `OpClass::writeDeclTo`: the class declaration with the trait list spelled
in the base-class template argument list. -/
def OpClass.writeDeclToStr (cls : OpClass) : String :=
  "class " ++ cls.className ++ " : public Op<" ++ cls.className
    ++ String.join (cls.traits.map (fun t => ", " ++ t))
    ++ "> \x7b\npublic:\n  using Op::Op;\n"
    ++ String.join (cls.methods.map (fun m => m.writeDeclToStr ++ "\n"))
    ++ "\x7d;"

/-- Mirror of `OpClass::writeDefTo`: every method definition, each followed by a blank
line (a declaration-only method contributes only the blank line). -/
def OpClass.writeDefToStr (cls : OpClass) : String :=
  String.join (cls.methods.map (fun m => m.writeDefToStr cls.className ++ "\n\n"))

/-- A TableGen field value: code block, plain string, or unset
(`CodeInit` / `StringInit` / otherwise). -/
inductive ValInit where
  | codeInit (s : String)
  | stringInit (s : String)
  | unsetInit

/-- An operand or result specification (`tblgen::NamedTypeConstraint`):
name, variadic flag, predicate presence, condition template, description. -/
structure NamedTypeConstraint where
  name : String
  isVariadic : Bool
  hasPred : Bool
  conditionTmpl : String
  description : String

/-- An attribute specification (`tblgen::Attribute` fields the generator
reads). -/
structure AttrSpec where
  storageType : String
  returnType : String
  isDerived : Bool
  derivedCodeBody : String
  isOptional : Bool
  hasDefaultValueInitializer : Bool
  defaultValueInitializer : String
  constBuilderTemplate : String
  convertFromStorageCall : String
  isTypeAttr : Bool
  description : String
  predCondition : Option String

/-- A named attribute (`tblgen::NamedAttribute`). -/
structure NamedAttr where
  name : String
  attr : AttrSpec

/-- One declared argument: an operand or an attribute. -/
inductive Arg where
  | operand (o : NamedTypeConstraint)
  | attr (a : NamedAttr)

/-- A declared trait: a native trait identifier or a predicate trait
(condition template + description). -/
inductive TraitDef where
  | native (t : String)
  | pred (tmpl : String) (desc : String)

/-- A user-supplied custom builder (an entry of the `builders` list field). -/
structure CustomBuilder where
  params : String
  body : String

/-- The operation record: every field `OpDefinitionsGen.cpp` reads. -/
structure Record where
  opName : String
  cppClassName : String
  qualCppClassName : String
  args : List Arg
  results : List NamedTypeConstraint
  traits : List TraitDef
  builders : List CustomBuilder
  parserCode : ValInit
  printerCode : ValInit
  verifierCode : ValInit
  hasCanonicalizer : Bool
  hasConstantFolder : Bool
  hasFolder : Bool

/-- Mirror of `Operator::getOperands`: the operand sublist of the arguments. -/
def Record.getOperands (r : Record) : List NamedTypeConstraint :=
  r.args.filterMap (fun a => match a with | .operand o => some o | .attr _ => none)

/-- Mirror of `Operator::getAttributes`: the attribute sublist of the arguments. -/
def Record.getAttributes (r : Record) : List NamedAttr :=
  r.args.filterMap (fun a => match a with | .operand _ => none | .attr na => some na)

/-- Mirror of `Operator::hasVariadicResult`. -/
def Record.hasVariadicResultB (r : Record) : Bool :=
  r.results.any (·.isVariadic)

/-- Mirror of `Operator::hasVariadicOperand`. -/
def Record.hasVariadicOperandB (r : Record) : Bool :=
  r.getOperands.any (·.isVariadic)

/-- Mirror of `Operator::getNumPredOpTraits`: how many declared traits are predicate
traits. -/
def Record.numPredOpTraits (r : Record) : Nat :=
  (r.traits.filter (fun t => match t with | .pred _ _ => true | .native _ => false)).length

/-- Mirror of `Operator::hasTrait`: whether a native trait with the given identifier
was declared. -/
def Record.hasTraitB (r : Record) (nm : String) : Bool :=
  r.traits.any (fun t => match t with | .native n => n = nm | .pred _ _ => false)

/-- Mirror of `hasStringAttribute(def, field)`: the field holds a code or string
value. -/
def ValInit.isStringLike : ValInit → Bool
  | .codeInit _ => true
  | .stringInit _ => true
  | .unsetInit => false

/-- Mirror of `Record::getValueAsString` on a code/string field (empty when unset). -/
def ValInit.asString : ValInit → String
  | .codeInit s => s
  | .stringInit s => s
  | .unsetInit => ""

/-- Modelled from the spec: the external formatting helper (`tgfmt` of
`mlir/TableGen/Format`, an out-of-scope collaborator, spec section 9):
substitutes the given placeholder bindings (`$_self`, `$_builder`, `$_op`,
positional `$0`/`$1`/`$2`) in a template, one binding after the other. -/
def replaceAllAux (pat rep : List Char) : Nat → List Char → List Char
  | 0, l => l
  | fuel + 1, l =>
    match splitOnceAux pat l with
    | none => l
    | some (pre, post) => pre ++ rep ++ replaceAllAux pat rep fuel post

/-- Replace every occurrence of `pat` in `s` by `rep` (left to right). -/
def replaceAll (s pat rep : String) : String :=
  String.mk (replaceAllAux pat.data rep.data (s.data.length + 1) s.data)

def tgfmtS (tmpl : String) (bindings : List (String × String)) : String :=
  bindings.foldl (fun s p => replaceAll s p.1 p.2) tmpl

/-- Mirror of `OpEmitter::genTraits` (lines 871-914): result-arity trait, then the
declared native traits in order, then the operand-arity trait; every
insertion goes through `OpClass::addTrait` and hence receives the
`OpTrait::` prefix. -/
def genTraits (r : Record) (cls : OpClass) : OpClass :=
  let numResults := r.results.length
  let cls :=
    if r.hasVariadicResultB then
      if numResults = 1 then cls.addTrait "VariadicResults"
      else cls.addTrait ("AtLeastNResults<" ++ toString (numResults - 1) ++ ">::Impl")
    else
      match numResults with
      | 0 => cls.addTrait "ZeroResult"
      | 1 => cls.addTrait "OneResult"
      | _ => cls.addTrait ("NResults<" ++ toString numResults ++ ">::Impl")
  let cls := r.traits.foldl
    (fun c t => match t with
      | .native n => c.addTrait n
      | .pred _ _ => c) cls
  let numOperands := r.getOperands.length
  if r.hasVariadicOperandB then
    if numOperands = 1 then cls.addTrait "VariadicOperands"
    else cls.addTrait ("AtLeastNOperands<" ++ toString (numOperands - 1) ++ ">::Impl")
  else cls.addTrait ("NOperands<" ++ toString numOperands ++ ">::Impl")

/-- Mirror of `OpEmitter::genOpNameGetter`. -/
def genOpNameGetter (r : Record) (cls : OpClass) : OpClass :=
  cls.addMethod ((OpMethod.mk0 "StringRef" "getOperationName" "" true false).app
    ("  return \"" ++ r.opName ++ "\";\n"))

/-- The getter emitted for a named non-variadic operand at index `i`. -/
def singleOperandGetter (i : Nat) (nm : String) : OpMethod :=
  (OpMethod.mk0 "Value *" nm "" false false).app
    ("  return this->getOperation()->getOperand(" ++ toString i ++ ");\n")

/-- The body of the getter emitted for the (last, named) variadic operand at
index `i`: the raw-string template of `genNamedOperandGetters` with both
`{0}` holes filled by `i`. -/
def variadicGetterBody (i : Nat) : String :=
  "\n        assert(getOperation()->getNumOperands() >= " ++ toString i
    ++ ");\n        return \x7bstd::next(operand_begin(), " ++ toString i
    ++ "), operand_end()\x7d;\n      "

/-- The getter emitted for a named variadic operand at index `i`. -/
def variadicOperandGetter (i : Nat) (nm : String) : OpMethod :=
  (OpMethod.mk0 "Operation::operand_range" nm "" false false).app (variadicGetterBody i)

/-- The loop of `OpEmitter::genNamedOperandGetters` (lines 457-477): skip
unnamed operands; a named non-variadic operand yields a single-operand
getter, a named variadic operand yields the slice getter. -/
def namedOperandGettersGo : Nat → List NamedTypeConstraint → List OpMethod
  | _, [] => []
  | i, o :: rest =>
    if o.name = "" then namedOperandGettersGo (i + 1) rest
    else if o.isVariadic = false then
      singleOperandGetter i o.name :: namedOperandGettersGo (i + 1) rest
    else
      variadicOperandGetter i o.name :: namedOperandGettersGo (i + 1) rest

/-- Mirror of `OpEmitter::genNamedOperandGetters`. -/
def genNamedOperandGetters (r : Record) (cls : OpClass) : OpClass :=
  { cls with methods := cls.methods ++ namedOperandGettersGo 0 r.getOperands }

/-- The loop of `OpEmitter::genNamedResultGetters` (lines 479-488): skip
variadic or unnamed results. -/
def namedResultGettersGo : Nat → List NamedTypeConstraint → List OpMethod
  | _, [] => []
  | i, res :: rest =>
    if res.isVariadic = true ∨ res.name = "" then namedResultGettersGo (i + 1) rest
    else
      (OpMethod.mk0 "Value *" res.name "" false false).app
        ("  return this->getOperation()->getResult(" ++ toString i ++ ");\n")
      :: namedResultGettersGo (i + 1) rest

/-- Mirror of `OpEmitter::genNamedResultGetters`. -/
def genNamedResultGetters (r : Record) (cls : OpClass) : OpClass :=
  { cls with methods := cls.methods ++ namedResultGettersGo 0 r.results }

/-- The builder handle bound into the format context of `genAttrGetters`. -/
def attrGetterCtxBuilder : String := "mlir::Builder(this->getContext())"

/-- The getter emitted for one attribute by `OpEmitter::genAttrGetters`
(lines 418-455). -/
def attrGetterMethod (na : NamedAttr) : OpMethod :=
  let m := OpMethod.mk0 na.attr.returnType na.name "" false false
  if na.attr.isDerived then
    m.app ("  " ++ na.attr.derivedCodeBody ++ "\n")
  else
    let attrVal := "this->getAttr(\"" ++ na.name ++ "\").dyn_cast_or_null<"
      ++ na.attr.storageType ++ ">()"
    let m := m.app ("  auto attr = " ++ attrVal ++ ";\n")
    let m :=
      if na.attr.hasDefaultValueInitializer then
        let defaultValue := tgfmtS na.attr.constBuilderTemplate
          [("$_builder", attrGetterCtxBuilder), ("$0", na.attr.defaultValueInitializer)]
        m.app ("    if (!attr)\n      return "
          ++ tgfmtS na.attr.convertFromStorageCall
              [("$_builder", attrGetterCtxBuilder), ("$_self", defaultValue)]
          ++ ";\n")
      else m
    m.app ("  return "
      ++ tgfmtS na.attr.convertFromStorageCall
          [("$_builder", attrGetterCtxBuilder), ("$_self", "attr")]
      ++ ";\n")

/-- Mirror of `OpEmitter::genAttrGetters`. -/
def genAttrGetters (r : Record) (cls : OpClass) : OpClass :=
  r.getAttributes.foldl (fun c na => c.addMethod (attrGetterMethod na)) cls

/-- A default (never-used) operand for out-of-range indexing. -/
def defaultNTC : NamedTypeConstraint := ⟨"", false, false, "", ""⟩

/-- A default (never-used) attribute for out-of-range indexing. -/
def defaultNamedAttr : NamedAttr :=
  ⟨"", ⟨"", "", false, "", false, false, "", "", "", false, "", none⟩⟩

/-- Mirror of `getArgumentName(op, index)`: the operand name, or
`tblgen_arg_<index>` when the operand is unnamed. -/
def getArgumentName (r : Record) (index : Nat) : String :=
  let operand := r.getOperands.getD index defaultNTC
  if operand.name ≠ "" then operand.name
  else "tblgen_arg" ++ "_" ++ toString index

/-- The `tblgen_state` output-state parameter name (`builderOpState`). -/
def builderOpState : String := "tblgen_state"

/-- The parameter-list fragment contributed by the argument loop of
`genStandaloneParamBuilder` (lines 521-542), tracking the running operand
and attribute counters. -/
def standaloneArgStep (r : Record) (st : String × Nat × Nat) (a : Arg) : String × Nat × Nat :=
  match a with
  | .operand o =>
    (st.1 ++ (if o.isVariadic then ", ArrayRef<Value *> " else ", Value *")
       ++ getArgumentName r st.2.1,
     st.2.1 + 1, st.2.2)
  | .attr na =>
    (st.1 ++ ", " ++ (if na.attr.isOptional then "/*optional*/" else "")
       ++ na.attr.storageType ++ " " ++ na.name,
     st.2.1, st.2.2 + 1)

/-- The `build` method constructed by `OpEmitter::genStandaloneParamBuilder`
(lines 498-624): the parameter list (result types unless a deduction mode is
active, then operands and attributes) and the body pushing result types,
operands and attributes. -/
def standaloneParamMethod (r : Record) (useOperandType useAttrType : Bool) : OpMethod :=
  let numResults := r.results.length
  let resultNames : List String :=
    if !useOperandType && !useAttrType then
      (List.enumFrom 0 r.results).map
        (fun p => if p.2.name = "" then "resultType" ++ toString p.1 else p.2.name)
    else []
  let paramList := "Builder *, OperationState *" ++ builderOpState
  let paramList :=
    if !useOperandType && !useAttrType then
      paramList ++ String.join ((List.enumFrom 0 r.results).map
        (fun p =>
          (if p.2.isVariadic then ", ArrayRef<Type> " else ", Type ")
            ++ (if p.2.name = "" then "resultType" ++ toString p.1 else p.2.name)))
    else paramList
  let paramList := (r.args.foldl (standaloneArgStep r) (paramList, 0, 0)).1
  let numOperands := r.getOperands.length
  let method := OpMethod.mk0 "void" "build" paramList true false
  let hasVariadicOperand := r.hasVariadicOperandB
  let method :=
    if numResults > 0 then
      if !useOperandType && !useAttrType then
        let hasVariadicResult := r.hasVariadicResultB
        let numNonVariadicResults := numResults - (if hasVariadicResult then 1 else 0)
        let method :=
          if numNonVariadicResults > 0 then
            method.app ("  " ++ builderOpState ++ "->addTypes(\x7b"
              ++ resultNames.headD ""
              ++ String.join (((resultNames.drop 1).take (numNonVariadicResults - 1)).map
                  (fun n => ", " ++ n))
              ++ "\x7d);\n")
          else method
        if hasVariadicResult then
          method.app ("  " ++ builderOpState ++ "->addTypes("
            ++ resultNames.getLastD "" ++ ");\n")
        else method
      else
        let resultType :=
          if useAttrType then
            let na := r.getAttributes.getD 0 defaultNamedAttr
            if na.attr.isTypeAttr then na.name ++ ".getValue()"
            else na.name ++ ".getType()"
          else
            let index := if numOperands = 1 && hasVariadicOperand then ".front()" else ""
            getArgumentName r 0 ++ index ++ "->getType()"
        method.app ("  " ++ builderOpState ++ "->addTypes(\x7b" ++ resultType
          ++ String.join (List.replicate (numResults - 1) (", " ++ resultType))
          ++ "\x7d);\n\n")
    else method
  let numNonVariadicOperands := numOperands - (if hasVariadicOperand then 1 else 0)
  let method :=
    if numNonVariadicOperands > 0 then
      method.app ("  " ++ builderOpState ++ "->addOperands(\x7b"
        ++ getArgumentName r 0
        ++ String.join (((List.range numNonVariadicOperands).drop 1).map
            (fun i => ", " ++ getArgumentName r i))
        ++ "\x7d);\n")
    else method
  let method :=
    if hasVariadicOperand then
      method.app ("  " ++ builderOpState ++ "->addOperands("
        ++ getArgumentName r (numOperands - 1) ++ ");\n")
    else method
  r.getAttributes.foldl
    (fun m na =>
      if na.attr.isDerived then m
      else
        let m := if na.attr.isOptional then m.app ("  if (" ++ na.name ++ ") \x7b\n") else m
        let m := m.app ("  " ++ builderOpState ++ "->addAttribute(\""
          ++ na.name ++ "\", " ++ na.name ++ ");\n")
        if na.attr.isOptional then m.app "  \x7d\n" else m)
    method

/-- Mirror of `OpEmitter::genStandaloneParamBuilder` (lines 490-625).  Returns the
fatal-error message via `Except.error` for the two `PrintFatalError` paths:
requesting both deduction modes (lines 492-496), and the operand/attribute
count mismatch (lines 544-546).  The two checks are hoisted before the
(pure, effect-free) method construction of `standaloneParamMethod`, which
the C++ interleaves with them; the argument-loop counters checked at line
544 are the operand/attribute totals of the argument list, and the C++ loop
counter `numOperands` equals `getOperands().length` when the check passes. -/
def genStandaloneParamBuilder (r : Record) (useOperandType useAttrType : Bool)
    (cls : OpClass) : Except String OpClass :=
  if useOperandType && useAttrType then
    .error ("Op definition has both \x27SameOperandsAndResultType\x27 and "
      ++ "\x27FirstAttrIsResultType\x27 trait specified.")
  else if (r.args.foldl (standaloneArgStep r) ("", 0, 0)).2.1
      + (r.args.foldl (standaloneArgStep r) ("", 0, 0)).2.2 ≠ r.args.length then
    .error "op arguments must be either operands or attributes"
  else
    .ok (cls.addMethod (standaloneParamMethod r useOperandType useAttrType))

/-- The aggregated-parameter builder of `OpEmitter::genBuilder`
(lines 673-700): one array each of result types, operands and attribute
pairs; size assertions are emitted unless the corresponding count is
"variadic with zero fixed entries". -/
def aggregatedBuilderMethod (r : Record) : OpMethod :=
  let numResults := r.results.length
  let hasVariadicResult := r.hasVariadicResultB
  let numNonVariadicResults := numResults - (if hasVariadicResult then 1 else 0)
  let numOperands := r.getOperands.length
  let hasVariadicOperand := r.hasVariadicOperandB
  let numNonVariadicOperands := numOperands - (if hasVariadicOperand then 1 else 0)
  let params := "Builder *, OperationState *" ++ builderOpState
    ++ ", ArrayRef<Type> resultTypes, ArrayRef<Value *> operands, "
    ++ "ArrayRef<NamedAttribute> attributes"
  let body :=
    (if !(hasVariadicResult && numNonVariadicResults = 0) then
       "  assert(resultTypes.size()" ++ (if hasVariadicResult then " >= " else " == ")
         ++ toString numNonVariadicResults ++ "u && \"mismatched number of return types\");\n"
     else "")
    ++ ("  " ++ builderOpState ++ "->addTypes(resultTypes);\n")
    ++ (if !(hasVariadicOperand && numNonVariadicOperands = 0) then
         "  assert(operands.size()" ++ (if hasVariadicOperand then " >= " else " == ")
           ++ toString numNonVariadicOperands ++ "u && \"mismatched number of parameters\");\n"
       else "")
    ++ ("  " ++ builderOpState ++ "->addOperands(operands);\n\n")
    ++ ("  for (const auto& pair : attributes)\n    " ++ builderOpState
        ++ "->addAttribute(pair.first, pair.second);\n")
  (OpMethod.mk0 "void" "build" params true false).app body

/-- The custom-builder emission at the start of `OpEmitter::genBuilder`
(lines 631-647): each entry verbatim, declaration-only when it has no body. -/
def genCustomBuilders (r : Record) (cls : OpClass) : OpClass :=
  r.builders.foldl
    (fun c b =>
      let hasBody := b.body ≠ ""
      let m := OpMethod.mk0 "void" "build" b.params true (!hasBody)
      let m := if hasBody then m.app b.body else m
      c.addMethod m)
    cls

/-- Mirror of `OpEmitter::genBuilder` (lines 627-708): custom builders, the
stand-alone-parameter builder, the aggregated-parameter builder, and — only
for an op without variadic result that requests a deduction mode — the
deduced-result-type builder. -/
def genBuilder (r : Record) (cls : OpClass) : Except String OpClass :=
  match genStandaloneParamBuilder r false false (genCustomBuilders r cls) with
  | .error e => .error e
  | .ok cls2 =>
    let cls3 := cls2.addMethod (aggregatedBuilderMethod r)
    if !r.hasVariadicResultB
        && (r.hasTraitB "SameOperandsAndResultType"
            || r.hasTraitB "FirstAttrDerivedResultType") then
      genStandaloneParamBuilder r (r.hasTraitB "SameOperandsAndResultType")
        (r.hasTraitB "FirstAttrDerivedResultType") cls3
    else .ok cls3

/-- Mirror of `OpEmitter::genParser` (lines 750-759): only when the `parser` field
holds a code or string value; the body is a two-space indent followed by the
text trimmed by `.ltrim().rtrim(" \t\v\f\r")`. -/
def genParser (r : Record) (cls : OpClass) : OpClass :=
  if r.parserCode.isStringLike then
    cls.addMethod ((OpMethod.mk0 "bool" "parse"
        "OpAsmParser *parser, OperationState *result" true false).app
      ("  " ++ llvmTrimCustomCode r.parserCode.asString))
  else cls

/-- Mirror of `OpEmitter::genPrinter` (lines 761-770): only when the `printer` field
holds a code value (a plain string value is ignored). -/
def genPrinter (r : Record) (cls : OpClass) : OpClass :=
  match r.printerCode with
  | .codeInit s =>
    cls.addMethod ((OpMethod.mk0 "void" "print" "OpAsmPrinter *p" false false).app
      ("  " ++ llvmTrimCustomCode s))
  | _ => cls

/-- Whether the op supplies custom verification code: the `verifier` field is
a nonempty code value (`genVerifier`, lines 772-775). -/
def Record.hasCustomVerify (r : Record) : Bool :=
  match r.verifierCode with
  | .codeInit c => c ≠ ""
  | _ => false

/-- The op handle bound into the format context of `genVerifier`. -/
def verifierCtxOp : String := "(*this->getOperation())"

/-- The attribute-check portion of the `verify` body (lines 786-821). -/
def verifierAttrChunk (na : NamedAttr) : String :=
  if na.attr.isDerived then ""
  else
    let varName := "tblgen_" ++ na.name
    let s := "  auto " ++ varName ++ " = this->getAttr(\"" ++ na.name ++ "\");\n"
    let allowMissingAttr := na.attr.hasDefaultValueInitializer || na.attr.isOptional
    let s := s ++
      (if allowMissingAttr then "  if (" ++ varName ++ ") \x7b\n"
       else "  if (!" ++ varName ++ ") return emitOpError(\"requires attribute \x27"
         ++ na.name ++ "\x27\");\n  \x7b\n")
    let s := s ++
      (match na.attr.predCondition with
       | none => ""
       | some cond =>
         tgfmtS ("    if (!($0)) return emitOpError(\"attribute \x27$1\x27 "
             ++ "failed to satisfy constraint: $2\");\n")
           [("$0", tgfmtS cond [("$_op", verifierCtxOp), ("$_self", varName)]),
            ("$1", na.name), ("$2", na.attr.description)])
    s ++ "  \x7d\n"

/-- The operand/result type-check portion of the `verify` body
(`verifyValue`, lines 823-846): variadic values are skipped. -/
def verifierValueChunk (isOperand : Bool) (i : Nat) (v : NamedTypeConstraint) : String :=
  if v.isVariadic then ""
  else if v.hasPred then
    "  if (!("
      ++ tgfmtS v.conditionTmpl
          [("$_op", verifierCtxOp),
           ("$_self", "this->getOperation()->get" ++ (if isOperand then "Operand" else "Result")
             ++ "(" ++ toString i ++ ")->getType()")]
      ++ "))\n    return emitOpError(\"" ++ (if isOperand then "operand" else "result")
      ++ " #" ++ toString i
      ++ (if v.description = "" then " type precondition failed"
          else " must be " ++ v.description)
      ++ "\");\n"
  else ""

/-- The chunks of `verifyValue` over an indexed list. -/
def verifierValuesChunk (isOperand : Bool) : Nat → List NamedTypeConstraint → String
  | _, [] => ""
  | i, v :: rest => verifierValueChunk isOperand i v ++ verifierValuesChunk isOperand (i + 1) rest

/-- The predicate-trait checks of the `verify` body (lines 856-863). -/
def verifierTraitChunk (t : TraitDef) : String :=
  match t with
  | .native _ => ""
  | .pred tmpl desc =>
    tgfmtS "  if (!($0))\n    return emitOpError(\"failed to verify that $1\");\n"
      [("$0", tgfmtS tmpl [("$_op", verifierCtxOp)]), ("$1", desc)]

/-- Mirror of `OpEmitter::genVerifier` (lines 772-869): skipped when there is no custom
verification code, no declared arguments, no results and no predicate
traits; otherwise emits the single `verify` method. -/
def genVerifier (r : Record) (cls : OpClass) : OpClass :=
  if r.hasCustomVerify = false ∧ r.args.length = 0 ∧ r.results.length = 0
      ∧ r.numPredOpTraits = 0 then
    cls
  else
    let body := String.join (r.getAttributes.map verifierAttrChunk)
    let body := body ++ verifierValuesChunk true 0 r.getOperands
    let body := body ++ verifierValuesChunk false 0 r.results
    let body := body ++ String.join (r.traits.map verifierTraitChunk)
    let body := body ++
      (if r.hasCustomVerify then r.verifierCode.asString ++ "\n"
       else "  return mlir::success();\n")
    cls.addMethod ((OpMethod.mk0 "LogicalResult" "verify" "" false false).app body)

/-- Mirror of `OpEmitter::genCanonicalizerDecls`. -/
def genCanonicalizerDecls (r : Record) (cls : OpClass) : OpClass :=
  if r.hasCanonicalizer then
    cls.addMethod (OpMethod.mk0 "void" "getCanonicalizationPatterns"
      "OwningRewritePatternList &results, MLIRContext *context" true true)
  else cls

/-- Mirror of `OpEmitter::genFolderDecls`. -/
def genFolderDecls (r : Record) (cls : OpClass) : OpClass :=
  let hasSingleResult := r.results.length = 1
  let cls :=
    if r.hasConstantFolder then
      if hasSingleResult then
        cls.addMethod (OpMethod.mk0 "Attribute" "constantFold"
          "ArrayRef<Attribute> operands, MLIRContext *context" false true)
      else
        cls.addMethod (OpMethod.mk0 "LogicalResult" "constantFold"
          ("ArrayRef<Attribute> operands, SmallVectorImpl<Attribute> &results, "
            ++ "MLIRContext *context") false true)
    else cls
  if r.hasFolder then
    if hasSingleResult then
      cls.addMethod (OpMethod.mk0 "Value *" "fold" "" false true)
    else
      cls.addMethod (OpMethod.mk0 "bool" "fold" "SmallVectorImpl<Value *> &results" false true)
  else cls

/-- The `OpEmitter` constructor (lines 389-404): the fixed pass order.  A
`PrintFatalError` in a pass aborts the whole generation, modelled by
`Except.error`. -/
def opEmitterClass (r : Record) : Except String OpClass :=
  let cls := OpClass.mk r.cppClassName [] []
  let cls := genTraits r cls
  let cls := genOpNameGetter r cls
  let cls := genNamedOperandGetters r cls
  let cls := genNamedResultGetters r cls
  let cls := genAttrGetters r cls
  match genBuilder r cls with
  | .error e => .error e
  | .ok cls =>
    let cls := genParser r cls
    let cls := genPrinter r cls
    let cls := genVerifier r cls
    let cls := genCanonicalizerDecls r cls
    let cls := genFolderDecls r cls
    .ok cls

/-- The banner dash line of `opCommentHeader` (80 columns). -/
def dashLine : String := "//===" ++ String.mk (List.replicate 70 (Char.ofNat 45)) ++ "===//"

/-- Mirror of `opCommentHeader` with its two `formatv` holes filled. -/
def opCommentHdr (cls kind : String) : String :=
  "\n" ++ dashLine ++ "\n// " ++ cls ++ " " ++ kind ++ "\n" ++ dashLine ++ "\n\n"

/-- The `IfDefScope` guard wrapping (`#ifdef`/`#undef` on entry, `#endif` on
exit). -/
def ifdefWrap (nm body : String) : String :=
  "#ifdef " ++ nm ++ "\n" ++ "#undef " ++ nm ++ "\n\n" ++ body
    ++ "\n" ++ "#endif  // " ++ nm ++ "\n\n"

/-- Mirror of `emitOpClasses` (lines 923-939): per op, a comment banner and the class
declaration (decl mode) or the method definitions (def mode), all inside the
`GET_OP_CLASSES` guard. -/
def emitOpClassesText (defs : List Record) (emitDecl : Bool) : Except String String := do
  let body ← defs.foldlM
    (fun acc r => do
      let c ← opEmitterClass r
      if emitDecl then
        pure (acc ++ opCommentHdr r.qualCppClassName "declarations" ++ c.writeDeclToStr)
      else
        pure (acc ++ opCommentHdr r.qualCppClassName "definitions" ++ c.writeDefToStr))
    ""
  pure (ifdefWrap "GET_OP_CLASSES" body)

/-- Mirror of `emitOpList` (lines 942-951): the comma-separated class-name list inside
the `GET_OP_LIST` guard. -/
def emitOpListText (defs : List Record) : String :=
  ifdefWrap "GET_OP_LIST" (String.intercalate ",\n" (defs.map (·.qualCppClassName)))

/-- Mirror of `emitOpDecls` minus the external file header: declarations mode. -/
def emitOpDeclsText (defs : List Record) : Except String String :=
  emitOpClassesText defs true

/-- Mirror of `emitOpDefs` minus the external file header: the op list followed by
definitions mode. -/
def emitOpDefsText (defs : List Record) : Except String String := do
  let classes ← emitOpClassesText defs false
  pure (emitOpListText defs ++ classes)

/-- The `OpTrait::`-prefixed identifier contributed to the trait list by a
declared trait: native traits only, in order. -/
def nativePrefixed : TraitDef → Option String
  | .native n => some ("OpTrait::" ++ n)
  | .pred _ _ => none

/-- The unprefixed result-arity trait name chosen by `genTraits`. -/
def rawResultArity (r : Record) : String :=
  if r.hasVariadicResultB then
    if r.results.length = 1 then "VariadicResults"
    else "AtLeastNResults<" ++ toString (r.results.length - 1) ++ ">::Impl"
  else match r.results.length with
    | 0 => "ZeroResult"
    | 1 => "OneResult"
    | _ => "NResults<" ++ toString r.results.length ++ ">::Impl"

/-- The unprefixed operand-arity trait name chosen by `genTraits`. -/
def rawOperandArity (r : Record) : String :=
  if r.hasVariadicOperandB then
    if r.getOperands.length = 1 then "VariadicOperands"
    else "AtLeastNOperands<" ++ toString (r.getOperands.length - 1) ++ ">::Impl"
  else "NOperands<" ++ toString r.getOperands.length ++ ">::Impl"

/-- The result-arity trait string as inserted (with namespace prefix). -/
def resultArityTag (r : Record) : String := "OpTrait::" ++ rawResultArity r

/-- The operand-arity trait string as inserted (with namespace prefix). -/
def operandArityTag (r : Record) : String := "OpTrait::" ++ rawOperandArity r

/-- Example record for the C4 witness: operands `lhs` (fixed, named) and
`rest` (variadic, named, last). -/
def recC4 : Record :=
  ⟨"test.c4", "C4Op", "C4Op",
   [Arg.operand ⟨"lhs", false, false, "", ""⟩, Arg.operand ⟨"rest", true, false, "", ""⟩],
   [], [], [], ValInit.unsetInit, ValInit.unsetInit, ValInit.unsetInit, false, false, false⟩

/-- Example record for the C3 counterexample: one attribute, no operands, no
results, no predicate traits, no custom verification code. -/
def recC3 : Record :=
  ⟨"test.c3", "C3Op", "C3Op",
   [Arg.attr ⟨"x", ⟨"IntegerAttr", "APInt", false, "", false, false, "", "", "", false,
     "", none⟩⟩],
   [], [], [], ValInit.unsetInit, ValInit.unsetInit, ValInit.unsetInit, false, false, false⟩

/-- Example record for the C6 counterexample: both propagation traits
declared AND a variadic result. -/
def recC6 : Record :=
  ⟨"test.c6", "C6Op", "C6Op", [],
   [⟨"", true, false, "", ""⟩],
   [TraitDef.native "SameOperandsAndResultType", TraitDef.native "FirstAttrDerivedResultType"],
   [], ValInit.unsetInit, ValInit.unsetInit, ValInit.unsetInit, false, false, false⟩

/-- Example record for the C7 counterexample: a sole variadic result and one
fixed operand. -/
def recC7 : Record :=
  ⟨"test.c7", "C7Op", "C7Op",
   [Arg.operand ⟨"x", false, false, "", ""⟩],
   [⟨"", true, false, "", ""⟩],
   [], [], ValInit.unsetInit, ValInit.unsetInit, ValInit.unsetInit, false, false, false⟩

/-- Example record for the C8 counterexample: a code-typed parser body and a
string-typed printer body. -/
def recC8 : Record :=
  ⟨"test.c8", "C8Op", "C8Op", [], [], [], [],
   ValInit.codeInit "foo", ValInit.stringInit "bar", ValInit.unsetInit, false, false, false⟩

/-- Example record for the C9 witness. -/
def recC9 : Record :=
  ⟨"test.c9", "C9Op", "C9Op",
   [Arg.operand ⟨"x", false, false, "", ""⟩],
   [⟨"y", false, false, "", ""⟩],
   [TraitDef.native "Commutative"], [],
   ValInit.unsetInit, ValInit.unsetInit, ValInit.unsetInit, false, false, false⟩

/-- Example record for the C5 counterexample: zero operands, zero results. -/
def recC5 : Record :=
  ⟨"test.c5", "C5Op", "C5Op", [], [], [], [],
   ValInit.unsetInit, ValInit.unsetInit, ValInit.unsetInit, false, false, false⟩

/-! ## Theorems: supporting lemmas and the claims -/

lemma foldl_addNative_traits (ts : List TraitDef) (c : OpClass) :
    (ts.foldl (fun c t => match t with
      | TraitDef.native n => c.addTrait n
      | TraitDef.pred _ _ => c) c).traits = c.traits ++ ts.filterMap nativePrefixed := by
  induction ts generalizing c with
  | nil => simp
  | cons t ts ih =>
    rw [List.foldl_cons, ih]
    cases t with
    | native n => simp [OpClass.addTrait, nativePrefixed]
    | pred p d => simp [nativePrefixed]

lemma genTraits_eq (r : Record) (cls : OpClass) :
    genTraits r cls
      = (r.traits.foldl (fun c t => match t with
          | TraitDef.native n => c.addTrait n
          | TraitDef.pred _ _ => c) (cls.addTrait (rawResultArity r))).addTrait
          (rawOperandArity r) := by
  unfold genTraits rawResultArity rawOperandArity
  by_cases hvr : r.hasVariadicResultB <;> by_cases hvo : r.hasVariadicOperandB <;>
    rcases hL : r.results.length with _ | _ | n <;>
      simp only [hvr, hvo, hL, if_true, if_false, ite_true, ite_false, Bool.false_eq_true] <;>
      first | rfl | simp only [apply_ite (OpClass.addTrait _)]

lemma genTraits_traits (r : Record) (cls : OpClass) :
    (genTraits r cls).traits
      = cls.traits ++ [resultArityTag r] ++ r.traits.filterMap nativePrefixed
        ++ [operandArityTag r] := by
  rw [genTraits_eq, OpClass.addTrait, foldl_addNative_traits]
  simp [OpClass.addTrait, resultArityTag, operandArityTag]

/-- C1: for every operation specification, the derived trait list of the
generated class is, in this exact order: one result-arity trait
(`ZeroResult` / `OneResult` / `NResults<k>::Impl` when no variadic result;
`VariadicResults` when the sole result is variadic;
`AtLeastNResults<k-1>::Impl` when a variadic result follows `k-1` fixed
results), then every explicitly declared native trait in declaration order,
then one operand-arity trait chosen by the same rule shape
(`NOperands<k>::Impl` / `VariadicOperands` / `AtLeastNOperands<k-1>::Impl`);
every identifier is prefixed with the fixed `OpTrait::` namespace prefix
before insertion. -/
theorem c1_trait_order (r : Record) (cls : OpClass) :
    (genTraits r cls).traits
      = cls.traits
        ++ ["OpTrait::"
            ++ (if r.hasVariadicResultB then
                  if r.results.length = 1 then "VariadicResults"
                  else "AtLeastNResults<" ++ toString (r.results.length - 1) ++ ">::Impl"
                else match r.results.length with
                  | 0 => "ZeroResult"
                  | 1 => "OneResult"
                  | _ => "NResults<" ++ toString r.results.length ++ ">::Impl")]
        ++ r.traits.filterMap (fun t => match t with
            | TraitDef.native n => some ("OpTrait::" ++ n)
            | TraitDef.pred _ _ => none)
        ++ ["OpTrait::"
            ++ (if r.hasVariadicOperandB then
                  if r.getOperands.length = 1 then "VariadicOperands"
                  else "AtLeastNOperands<" ++ toString (r.getOperands.length - 1) ++ ">::Impl"
                else "NOperands<" ++ toString r.getOperands.length ++ ">::Impl")] := by
  have h := genTraits_traits r cls
  rw [resultArityTag, operandArityTag, rawResultArity, rawOperandArity] at h
  exact h

lemma namedOperandGettersGo_names (i : Nat) (ops : List NamedTypeConstraint) :
    (namedOperandGettersGo i ops).map (fun m => m.sig.methodName)
      = (ops.map (·.name)).filter (fun n => n ≠ "") := by
  induction ops generalizing i with
  | nil => simp [namedOperandGettersGo]
  | cons o rest ih =>
    by_cases h : o.name = ""
    · simp [namedOperandGettersGo, h, ih]
    · by_cases hv : o.isVariadic = false
      · simp [namedOperandGettersGo, h, hv, ih, singleOperandGetter, OpMethod.app,
          OpMethod.mk0]
      · simp [namedOperandGettersGo, h, hv, ih, variadicOperandGetter, OpMethod.app,
          OpMethod.mk0]

lemma namedOperandGettersGo_pre_variadic (i : Nat) (pre : List NamedTypeConstraint)
    (v : NamedTypeConstraint) (hvar : v.isVariadic = true) (hname : v.name ≠ "")
    (hpre : ∀ o ∈ pre, o.isVariadic = false) :
    namedOperandGettersGo i (pre ++ [v])
      = (List.enumFrom i pre).filterMap
          (fun p => if p.2.name = "" then none else some (singleOperandGetter p.1 p.2.name))
        ++ [variadicOperandGetter (i + pre.length) v.name] := by
  induction pre generalizing i with
  | nil => simp [namedOperandGettersGo, hname, hvar]
  | cons o rest ih =>
    have ho : o.isVariadic = false := hpre o (by simp)
    have hrest : ∀ x ∈ rest, x.isVariadic = false := fun x hx => hpre x (by simp [hx])
    have harith : i + 1 + rest.length = i + (rest.length + 1) := by omega
    by_cases hn : o.name = ""
    · simp only [List.cons_append, namedOperandGettersGo, hn, if_true, ite_true,
        List.enumFrom_cons, List.filterMap_cons, List.length_cons]
      rw [List.append_eq, ih (i + 1) hrest, harith]
    · simp only [List.cons_append, namedOperandGettersGo, hn, ho, if_false, ite_false,
        List.enumFrom_cons, List.filterMap_cons, List.length_cons]
      rw [List.append_eq, ih (i + 1) hrest, harith]
      simp [hn]

/-- C10: operand getters are emitted exactly for the operands whose declared
name is nonempty — an unnamed operand, variadic or not, yields no getter:
the emitted getter names are precisely the nonempty operand names, in
order. -/
theorem c10_named_operand_getters (r : Record) (cls : OpClass) :
    ((genNamedOperandGetters r cls).methods.map (fun m => m.sig.methodName))
      = cls.methods.map (fun m => m.sig.methodName)
        ++ (r.getOperands.map (·.name)).filter (fun n => n ≠ "") := by
  simp [genNamedOperandGetters, namedOperandGettersGo_names]

/-- C4: for an operation whose last declared operand (position `k`) is
variadic and named, the generated getter for it has the slice-returning body
(`return {std::next(operand_begin(), k), operand_end()}`) guarded by a
runtime assertion that at least `k` operands exist, while every named
operand getter at a position before `k` returns the single operand at that
index. -/
theorem c4_variadic_operand_getter (r : Record) (cls : OpClass)
    (pre : List NamedTypeConstraint) (v : NamedTypeConstraint)
    (hops : r.getOperands = pre ++ [v])
    (hvar : v.isVariadic = true) (hname : v.name ≠ "")
    (hpre : ∀ o ∈ pre, o.isVariadic = false) :
    (genNamedOperandGetters r cls).methods
      = cls.methods
        ++ (List.enumFrom 0 pre).filterMap
            (fun p => if p.2.name = "" then none else some (singleOperandGetter p.1 p.2.name))
        ++ [variadicOperandGetter pre.length v.name]
    ∧ (variadicOperandGetter pre.length v.name).body
        = "\n        assert(getOperation()->getNumOperands() >= " ++ toString pre.length
          ++ ");\n        return \x7bstd::next(operand_begin(), " ++ toString pre.length
          ++ "), operand_end()\x7d;\n      "
    ∧ ∀ p ∈ List.enumFrom 0 pre, (singleOperandGetter p.1 p.2.name).body
        = "  return this->getOperation()->getOperand(" ++ toString p.1 ++ ");\n" := by
  refine ⟨?_, ?_, ?_⟩
  · rw [genNamedOperandGetters, hops,
      namedOperandGettersGo_pre_variadic 0 pre v hvar hname hpre]
    simp
  · simp [variadicOperandGetter, variadicGetterBody, OpMethod.app, OpMethod.mk0]
  · intro p _
    simp [singleOperandGetter, OpMethod.app, OpMethod.mk0]

/-- Witness for C4 at the concrete record `recC4`. -/
theorem c4_variadic_operand_getter_witness :
    (genNamedOperandGetters recC4 (OpClass.mk "C4Op" [] [])).methods
      = (OpClass.mk "C4Op" [] []).methods
        ++ (List.enumFrom 0 [(⟨"lhs", false, false, "", ""⟩ : NamedTypeConstraint)]).filterMap
            (fun p => if p.2.name = "" then none else some (singleOperandGetter p.1 p.2.name))
        ++ [variadicOperandGetter
              [(⟨"lhs", false, false, "", ""⟩ : NamedTypeConstraint)].length "rest"]
    ∧ (variadicOperandGetter
          [(⟨"lhs", false, false, "", ""⟩ : NamedTypeConstraint)].length "rest").body
        = "\n        assert(getOperation()->getNumOperands() >= "
          ++ toString [(⟨"lhs", false, false, "", ""⟩ : NamedTypeConstraint)].length
          ++ ");\n        return \x7bstd::next(operand_begin(), "
          ++ toString [(⟨"lhs", false, false, "", ""⟩ : NamedTypeConstraint)].length
          ++ "), operand_end()\x7d;\n      "
    ∧ ∀ p ∈ List.enumFrom 0 [(⟨"lhs", false, false, "", ""⟩ : NamedTypeConstraint)],
        (singleOperandGetter p.1 p.2.name).body
          = "  return this->getOperation()->getOperand(" ++ toString p.1 ++ ");\n" :=
  c4_variadic_operand_getter recC4 (OpClass.mk "C4Op" [] [])
    [⟨"lhs", false, false, "", ""⟩] ⟨"rest", true, false, "", ""⟩
    rfl rfl (by decide) (by intro o ho; simp at ho; simp [ho])

/-- C2 counterexample: the out-of-line rendering of the parameter text
`"int a = 1, Foo *b"` is NOT `"int a, Foo *b"`: the kept portion before `=`
retains its trailing space, and the following entry keeps its leading space
after the `", "` joiner, so the definition renders with `"int a ,  Foo *b"`. -/
theorem c2_counterexample :
    OpMethodSignature.writeDefToStr ⟨"void", "build", "int a = 1, Foo *b"⟩ "FooOp"
        ≠ "void FooOp::build(int a, Foo *b)"
    ∧ removeParamDefaultValue "int a = 1, Foo *b" ≠ "int a, Foo *b" := by
  refine ⟨by decide, by decide⟩

/-- C2 amended: the renderer keeps, for each entry containing `=`, exactly
the text before the `=` (including its trailing whitespace) and rejoins the
entries with `", "` (so the next entry keeps its leading space); the example
parameter text renders in a definition as `"int a ,  Foo *b"`. -/
theorem c2_default_stripping :
    removeParamDefaultValue "int a = 1, Foo *b" = "int a ,  Foo *b"
    ∧ OpMethodSignature.writeDefToStr ⟨"void", "build", "int a = 1, Foo *b"⟩ "FooOp"
        = "void FooOp::build(int a ,  Foo *b)" := by
  refine ⟨by decide, by decide⟩

/-- C3 counterexample: `recC3` has no custom verification code, no operands,
no results and no operation-level predicate traits — the claim therefore
says its verify method is omitted — yet a `verify` method IS generated,
because the skip condition of `genVerifier` tests the declared-argument
count (operands plus attributes), not the operand count, and `recC3` has an
attribute. -/
theorem c3_counterexample :
    recC3.hasCustomVerify = false ∧ recC3.getOperands = [] ∧ recC3.results = []
    ∧ recC3.numPredOpTraits = 0
    ∧ ((genVerifier recC3 (OpClass.mk "C3Op" [] [])).methods.map (fun m => m.sig.methodName))
        = ["verify"] := by
  refine ⟨rfl, rfl, rfl, rfl, by decide⟩

/-- C3 amended: the verify method is omitted exactly when the operation has
no custom verification code, no declared arguments (neither operands nor
attributes), no results and no operation-level predicate traits; in every
other case a verify method is generated. -/
theorem c3_verifier_omission (r : Record) (cls : OpClass) :
    genVerifier r cls = cls
      ↔ (r.hasCustomVerify = false ∧ r.args.length = 0 ∧ r.results.length = 0
          ∧ r.numPredOpTraits = 0) := by
  constructor
  · intro h
    by_cases hc : r.hasCustomVerify = false ∧ r.args.length = 0 ∧ r.results.length = 0
        ∧ r.numPredOpTraits = 0
    · exact hc
    · exfalso
      rw [genVerifier, if_neg hc] at h
      have hlen := congrArg (fun c => c.methods.length) h
      simp [OpClass.addMethod] at hlen
  · intro h
    rw [genVerifier, if_pos h]

/-- Witness for C3 (amended): the reverse direction at a record satisfying
the skip condition, and the forward direction exercised at `recC3`. -/
theorem c3_verifier_omission_witness :
    genVerifier
        ⟨"test.c3w", "C3w", "C3w", [], [], [], [], ValInit.unsetInit, ValInit.unsetInit,
         ValInit.unsetInit, false, false, false⟩ (OpClass.mk "C3w" [] [])
      = OpClass.mk "C3w" [] [] :=
  (c3_verifier_omission _ _).mpr ⟨rfl, rfl, rfl, rfl⟩

lemma standalone_counts (r : Record) (args : List Arg) (pl : String) (a b : Nat) :
    ((args.foldl (standaloneArgStep r) (pl, a, b)).2.1
      + (args.foldl (standaloneArgStep r) (pl, a, b)).2.2) = a + b + args.length := by
  induction args generalizing pl a b with
  | nil => simp
  | cons x xs ih =>
    cases x with
    | operand o =>
      simp only [List.foldl_cons, standaloneArgStep, List.length_cons]
      rw [ih]
      omega
    | attr na =>
      simp only [List.foldl_cons, standaloneArgStep, List.length_cons]
      rw [ih]
      omega

lemma genStandaloneParamBuilder_ok (r : Record) (u1 u2 : Bool)
    (h : (u1 && u2) = false) (cls : OpClass) :
    genStandaloneParamBuilder r u1 u2 cls
      = .ok (cls.addMethod (standaloneParamMethod r u1 u2)) := by
  unfold genStandaloneParamBuilder
  rw [h, if_neg (show ¬(false = true) by decide),
    if_neg (show ¬¬((r.args.foldl (standaloneArgStep r) ("", 0, 0)).2.1
      + (r.args.foldl (standaloneArgStep r) ("", 0, 0)).2.2 = r.args.length) by
        rw [standalone_counts]
        omega)]

lemma genStandaloneParamBuilder_both (r : Record) (cls : OpClass) :
    genStandaloneParamBuilder r true true cls
      = .error ("Op definition has both \x27SameOperandsAndResultType\x27 and "
          ++ "\x27FirstAttrIsResultType\x27 trait specified.") := by
  unfold genStandaloneParamBuilder
  rfl

/-- C6 amended: requesting both operand-type and attribute-type result
propagation aborts generation with a fatal error exactly when the operation
has no variadic result; when a variadic result is present the deduced
builder (and hence its conflict check) is skipped entirely and generation
succeeds. -/
theorem c6_propagation_conflict (r : Record) (cls : OpClass) :
    (∃ e, genBuilder r cls = .error e)
      ↔ (r.hasTraitB "SameOperandsAndResultType" = true
          ∧ r.hasTraitB "FirstAttrDerivedResultType" = true
          ∧ r.hasVariadicResultB = false) := by
  unfold genBuilder
  rw [genStandaloneParamBuilder_ok r false false rfl (genCustomBuilders r cls)]
  simp only []
  cases hvr : r.hasVariadicResultB <;>
    cases hu1 : r.hasTraitB "SameOperandsAndResultType" <;>
      cases hu2 : r.hasTraitB "FirstAttrDerivedResultType" <;>
        simp only [hvr, hu1, hu2, Bool.not_true, Bool.not_false, Bool.true_and,
          Bool.false_and, Bool.and_true, Bool.and_false, Bool.or_true, Bool.or_false,
          Bool.true_or, Bool.false_or, if_true, if_false, ite_true, ite_false,
          Bool.false_eq_true, and_true, and_false, true_and, false_and,
          genStandaloneParamBuilder_both,
          genStandaloneParamBuilder_ok r true false rfl,
          genStandaloneParamBuilder_ok r false true rfl] <;>
        simp

/-- C6 counterexample: `recC6` requests both operand-type and attribute-type
result propagation, yet generation does not abort — it succeeds, because the
variadic result suppresses the deduced-result-type builder and with it the
conflict check. -/
theorem c6_counterexample :
    recC6.hasTraitB "SameOperandsAndResultType" = true
    ∧ recC6.hasTraitB "FirstAttrDerivedResultType" = true
    ∧ ∃ c, genBuilder recC6 (OpClass.mk "C6Op" [] []) = .ok c := by
  refine ⟨by decide, by decide, ⟨_, rfl⟩⟩

/-- C7 counterexample: for `recC7` (sole variadic result) the aggregated
builder body contains NO size assertion for the result-type array — the
would-be vacuous `>= 0` check is omitted — although it does push the result
types and does assert the operand-array size. -/
theorem c7_counterexample :
    strContains (aggregatedBuilderMethod recC7).body "assert(resultTypes.size()" = false
    ∧ strContains (aggregatedBuilderMethod recC7).body "->addTypes(resultTypes)" = true
    ∧ strContains (aggregatedBuilderMethod recC7).body "assert(operands.size() == 1u" = true := by
  refine ⟨by decide, by decide, by decide⟩

lemma str_empty_append (s : String) : "" ++ s = s := by
  cases s
  rfl

/-- C7 amended: the body of the aggregated builder asserts the result-type array
size (`==` fixed count when no variadic result, `>=` when one is present)
and the operand-array size likewise, before bulk-pushing result types,
operands and attribute pairs — EXCEPT that each assertion is omitted when
the corresponding list is a sole variadic entry (fixed count zero), where
the `>=` check would be vacuous. -/
theorem c7_aggregated_builder (r : Record) :
    (aggregatedBuilderMethod r).body
      = (if !(r.hasVariadicResultB
            && (r.results.length - (if r.hasVariadicResultB then 1 else 0)) = 0) then
           "  assert(resultTypes.size()" ++ (if r.hasVariadicResultB then " >= " else " == ")
             ++ toString (r.results.length - (if r.hasVariadicResultB then 1 else 0))
             ++ "u && \"mismatched number of return types\");\n"
         else "")
        ++ ("  " ++ builderOpState ++ "->addTypes(resultTypes);\n")
        ++ (if !(r.hasVariadicOperandB
              && (r.getOperands.length - (if r.hasVariadicOperandB then 1 else 0)) = 0) then
             "  assert(operands.size()" ++ (if r.hasVariadicOperandB then " >= " else " == ")
               ++ toString (r.getOperands.length - (if r.hasVariadicOperandB then 1 else 0))
               ++ "u && \"mismatched number of parameters\");\n"
           else "")
        ++ ("  " ++ builderOpState ++ "->addOperands(operands);\n\n")
        ++ ("  for (const auto& pair : attributes)\n    " ++ builderOpState
            ++ "->addAttribute(pair.first, pair.second);\n") := by
  unfold aggregatedBuilderMethod
  simp [OpMethod.app, OpMethod.mk0, str_empty_append]

/-- C8 counterexample: with verbatim parser text `"foo"`, the generated
body of the generated static `parse` method is `"  foo"` — the trimmed text behind a
two-space indent — not the trimmed text itself; and although a verbatim
printer body `"bar"` is supplied (as a string-typed field), no `print`
method is emitted, because `genPrinter` accepts only code-typed values. -/
theorem c8_counterexample :
    ((genParser recC8 (OpClass.mk "C8Op" [] [])).methods.map
        (fun m => (m.sig.methodName, m.body)))
      = [("parse", "  foo")]
    ∧ ("  foo" : String) ≠ "foo"
    ∧ recC8.printerCode = ValInit.stringInit "bar"
    ∧ genPrinter recC8 (OpClass.mk "C8Op" [] []) = OpClass.mk "C8Op" [] [] := by
  refine ⟨by decide, by decide, rfl, rfl⟩

/-- C8 amended: a parser field holding a code or string value yields a
static `parse` method whose body is a two-space indent followed by the
verbatim text with leading whitespace and trailing non-newline whitespace
trimmed; a `print` instance method is produced likewise but only for a
code-typed printer field (a string-typed one is ignored); an unset field
yields no method. -/
theorem c8_parser_printer (r : Record) (cls : OpClass) :
    (genParser r cls
      = match r.parserCode with
        | ValInit.unsetInit => cls
        | ValInit.codeInit s =>
          cls.addMethod ⟨⟨"bool", "parse", "OpAsmParser *parser, OperationState *result"⟩,
            true, false, "  " ++ llvmTrimCustomCode s⟩
        | ValInit.stringInit s =>
          cls.addMethod ⟨⟨"bool", "parse", "OpAsmParser *parser, OperationState *result"⟩,
            true, false, "  " ++ llvmTrimCustomCode s⟩)
    ∧ (genPrinter r cls
      = match r.printerCode with
        | ValInit.codeInit s =>
          cls.addMethod ⟨⟨"void", "print", "OpAsmPrinter *p"⟩,
            false, false, "  " ++ llvmTrimCustomCode s⟩
        | _ => cls) := by
  constructor
  · cases hp : r.parserCode <;>
      simp [genParser, hp, ValInit.isStringLike, ValInit.asString, OpMethod.mk0,
        OpMethod.app, str_empty_append]
  · cases hp : r.printerCode <;>
      simp [genPrinter, hp, OpMethod.mk0, OpMethod.app, str_empty_append]

/-- C9: generation is deterministic — two runs on identical batches of
operation specifications produce identical declarations-mode output and
identical definitions-mode output (generation is a pure function of the
specification; no state is shared across operations or runs). -/
theorem c9_deterministic_generation (defs1 defs2 : List Record) (h : defs1 = defs2) :
    emitOpDeclsText defs1 = emitOpDeclsText defs2
    ∧ emitOpDefsText defs1 = emitOpDefsText defs2 := by
  subst h
  exact ⟨rfl, rfl⟩

/-- Witness for C9 at a concrete one-record batch. -/
theorem c9_deterministic_generation_witness :
    emitOpDeclsText [recC9] = emitOpDeclsText [recC9]
    ∧ emitOpDefsText [recC9] = emitOpDefsText [recC9] :=
  c9_deterministic_generation [recC9] [recC9] rfl

lemma strDataAppend (a b : String) : (a ++ b).data = a.data ++ b.data := by
  cases a
  cases b
  rfl

lemma str_append_empty (s : String) : s ++ "" = s := by
  cases s
  show String.mk _ = _
  simp

lemma str_append_left_cancel {a x y : String} (h : a ++ x = a ++ y) : x = y := by
  have hd := congrArg String.data h
  rw [strDataAppend, strDataAppend] at hd
  exact String.ext (List.append_cancel_left hd)

lemma strPrefixCharNe (p q x y : String) (i : Nat) (hp : i < p.data.length)
    (hq : i < q.data.length) (hne : p.data.get ⟨i, hp⟩ ≠ q.data.get ⟨i, hq⟩) :
    p ++ x ≠ q ++ y := by
  intro h
  have hd := congrArg String.data h
  rw [strDataAppend, strDataAppend] at hd
  have h1 : (p.data ++ x.data).get? i = some (p.data.get ⟨i, hp⟩) := by
    rw [List.get?_append hp, List.get?_eq_get hp]
  have h2 : (q.data ++ y.data).get? i = some (q.data.get ⟨i, hq⟩) := by
    rw [List.get?_append hq, List.get?_eq_get hq]
  rw [hd, h2] at h1
  exact hne (Option.some.inj h1).symm

lemma ne_zeroResult_nOperands (u : String) : ("ZeroResult" : String) ≠ "NOperands<" ++ u := by
  rw [← str_append_empty "ZeroResult"]
  exact strPrefixCharNe "ZeroResult" "NOperands<" "" u 0 (by decide) (by decide) (by decide)

lemma ne_oneResult_nOperands (u : String) : ("OneResult" : String) ≠ "NOperands<" ++ u := by
  rw [← str_append_empty "OneResult"]
  exact strPrefixCharNe "OneResult" "NOperands<" "" u 0 (by decide) (by decide) (by decide)

lemma ne_nResults_nOperands (u v : String) :
    ("NResults<" : String) ++ u ≠ "NOperands<" ++ v :=
  strPrefixCharNe "NResults<" "NOperands<" u v 1 (by decide) (by decide) (by decide)

/-- For an op without variadic results/operands the two arity tags differ. -/
lemma arityTags_ne (r : Record) (hvr : r.hasVariadicResultB = false)
    (hvo : r.hasVariadicOperandB = false) :
    resultArityTag r ≠ operandArityTag r := by
  rw [resultArityTag, operandArityTag, rawResultArity, rawOperandArity, hvr, hvo]
  simp only [Bool.false_eq_true, if_false, ite_false]
  intro h
  have h2 := str_append_left_cancel h
  rw [String.append_assoc] at h2
  cases hL : r.results.length with
  | zero =>
    rw [hL] at h2
    exact ne_zeroResult_nOperands _ h2
  | succ k =>
    cases k with
    | zero =>
      rw [hL] at h2
      exact ne_oneResult_nOperands _ h2
    | succ k2 =>
      rw [hL] at h2
      rw [String.append_assoc] at h2
      exact ne_nResults_nOperands _ _ h2

/-- C5 counterexample: for an op with zero (non-variadic) operands the
derived trait list contains `NOperands<0>::Impl`, not `ZeroOperand` — there
is no `ZeroOperand`/`OneOperand` case on the operand side, so the claimed
result/operand symmetry fails. -/
theorem c5_counterexample :
    (genTraits recC5 (OpClass.mk "C5Op" [] [])).traits
        = ["OpTrait::ZeroResult", "OpTrait::NOperands<0>::Impl"]
    ∧ "OpTrait::ZeroOperand" ∉ (genTraits recC5 (OpClass.mk "C5Op" [] [])).traits
    ∧ "ZeroOperand" ∉ (genTraits recC5 (OpClass.mk "C5Op" [] [])).traits := by
  refine ⟨by decide, by decide, by decide⟩

/-- C5 amended: for result count `r` with no variadic result the derived
trait list contains exactly one result-arity trait — `ZeroResult` (r=0),
`OneResult` (r=1), `NResults<r>::Impl` otherwise — and for operand count `k`
with no variadic operand it contains exactly one operand-arity trait, which
is `NOperands<k>::Impl` for every `k` (including `k` = 0 and 1; there are no
`ZeroOperand`/`OneOperand` trait names), provided the declared native traits
do not themselves spell an arity tag. -/
theorem c5_arity_traits (r : Record) (nm : String)
    (hvr : r.hasVariadicResultB = false) (hvo : r.hasVariadicOperandB = false)
    (hfresh : ∀ s ∈ r.traits.filterMap nativePrefixed,
        s ≠ resultArityTag r ∧ s ≠ operandArityTag r) :
    ((genTraits r (OpClass.mk nm [] [])).traits.count (resultArityTag r) = 1
      ∧ (genTraits r (OpClass.mk nm [] [])).traits.count (operandArityTag r) = 1)
    ∧ resultArityTag r
        = "OpTrait::"
          ++ (match r.results.length with
              | 0 => "ZeroResult"
              | 1 => "OneResult"
              | _ => "NResults<" ++ toString r.results.length ++ ">::Impl")
    ∧ operandArityTag r
        = "OpTrait::" ++ ("NOperands<" ++ toString r.getOperands.length ++ ">::Impl") := by
  have hne := arityTags_ne r hvr hvo
  have hres0 : List.count (resultArityTag r) (r.traits.filterMap nativePrefixed) = 0 :=
    List.count_eq_zero.mpr (fun hm => (hfresh _ hm).1 rfl)
  have hop0 : List.count (operandArityTag r) (r.traits.filterMap nativePrefixed) = 0 :=
    List.count_eq_zero.mpr (fun hm => (hfresh _ hm).2 rfl)
  refine ⟨⟨?_, ?_⟩, ?_, ?_⟩
  · rw [genTraits_traits]
    simp [List.count_append, List.count_cons, List.count_nil, hres0, Ne.symm hne, hne]
  · rw [genTraits_traits]
    simp [List.count_append, List.count_cons, List.count_nil, hop0, Ne.symm hne, hne]
  · rw [resultArityTag, rawResultArity, hvr]
    simp
  · rw [operandArityTag, rawOperandArity, hvo]
    simp

/-- Witness for C5 (amended) at the concrete record `recC5`. -/
theorem c5_arity_traits_witness :
    ((genTraits recC5 (OpClass.mk "C5Op" [] [])).traits.count (resultArityTag recC5) = 1
      ∧ (genTraits recC5 (OpClass.mk "C5Op" [] [])).traits.count (operandArityTag recC5) = 1)
    ∧ resultArityTag recC5
        = "OpTrait::"
          ++ (match recC5.results.length with
              | 0 => "ZeroResult"
              | 1 => "OneResult"
              | _ => "NResults<" ++ toString recC5.results.length ++ ">::Impl")
    ∧ operandArityTag recC5
        = "OpTrait::" ++ ("NOperands<" ++ toString recC5.getOperands.length ++ ">::Impl") :=
  c5_arity_traits recC5 "C5Op" rfl rfl (by simp [recC5, nativePrefixed])
